import Mathlib

/-!
Verification of the embargo build tool (src/main.rs, src/parallel_runner.rs).

The Rust sources are shallowly embedded: pure logic becomes Lean functions,
external effects (the filesystem walk, spawned compiler processes, stream
writes) become explicit parameters and event traces, and the concurrent
worker pool of `parallel_run` becomes a small-step transition relation on a
pool state.  `Result<T, String>` is embedded as `Except String T`.
-/

namespace Embargo

/-- Rust `Result<T, String>` is embedded as `Except String T`; equality of
such results is decidable whenever both component types have decidable
equality. -/
instance instDecEqExcept {ε α : Type _} [DecidableEq ε] [DecidableEq α] :
    DecidableEq (Except ε α)
  | .error a, .error b =>
    if h : a = b then isTrue (by rw [h])
    else isFalse (by intro hc; injection hc; exact h (by assumption))
  | .error _, .ok _ => isFalse (by intro hc; exact Except.noConfusion hc)
  | .ok _, .error _ => isFalse (by intro hc; exact Except.noConfusion hc)
  | .ok a, .ok b =>
    if h : a = b then isTrue (by rw [h])
    else isFalse (by intro hc; injection hc; exact h (by assumption))

/-! ## Constants from src/main.rs -/

def CONFIG_FILE : String := "Embargo.toml"

def COMPILER_KEY : String := "compiler"
def DEBUGGER_KEY : String := "debugger"
def LINTER_KEY : String := "linter"
def FLAGS_KEY : String := "flags"
def DEBUG_FLAGS_KEY : String := "debug-flags"
def RELEASE_FLAGS_KEY : String := "release-flags"
def LINKER_FLAGS_KEY : String := "linker-flags"
def LINTER_CHECKS_KEY : String := "linter-checks"

def DEFAULT_COMPILER : String := "clang++"
def DEFAULT_DEBUGGER : String := "lldb"
def DEFAULT_LINTER : String := "clang-tidy"
def DEFAULT_FLAGS : List String := ["-Wall", "-Wextra", "-pedantic"]
def DEFAULT_DEBUG_FLAGS : List String := ["-g"]
def DEFAULT_RELEASE_FLAGS : List String := ["-O2"]
def DEFAULT_LINKER_FLAGS : List String := []
def DEFAULT_LINTER_CHECKS : String := "clang-analyzer-*"

def SRC_DIR : String := "src"
def INCLUDE_DIR : String := "include"
def BUILD_DIR : String := "build"
def DEBUG_BUILD_SUBDIR : String := "debug"
def RELEASE_BUILD_SUBDIR : String := "release"

/-- `std::path::MAIN_SEPARATOR` on the POSIX targets the crate builds for. -/
def SEPARATOR : Char := '/'

def SEP : String := String.mk [SEPARATOR]

/-! ## SourceCatalog: `find_file` and its wrappers

`find_file` iterates a `WalkDir` traversal.  Each traversal step yields
either a directory entry or an I/O error; the embedding takes the list of
yielded items as input.  A `DirEntry` carries the data the Rust code
inspects: the final file name, the full path, and whether it is a file. -/

structure DirEntry where
  name : String
  path : String
  isFile : Bool
deriving DecidableEq

/-- Model of Rust `str::ends_with` on the underlying character lists: the
candidate suffix must equal the tail of the string of its own length. -/
def ends_with_chars (s suffix : List Char) : Bool :=
  suffix == s.drop (s.length - suffix.length)

/-- `file_name.ends_with(ext)`. -/
def ends_with (s suffix : String) : Bool :=
  ends_with_chars s.data suffix.data

/-- One traversal: on the first erroneous entry the whole walk fails; a file
whose name ends with one of the accepted extensions contributes its path. -/
def find_file : List (Except String DirEntry) → List String → Except String (List String)
  | [], _ => .ok []
  | .error e :: _, _ => .error ("Error can't read entry : " ++ e)
  | .ok f :: rest, exts =>
    match find_file rest exts with
    | .error e => .error e
    | .ok files =>
      if f.isFile && exts.any (fun ext => ends_with f.name ext) then
        .ok (f.path :: files)
      else
        .ok files

def src_extensions : List String := [".cpp", ".c"]

def code_extensions : List String := [".hpp", ".h", ".cpp", ".c"]

def object_extensions : List String := [".o"]

/-- `find_srcs` walks the `src` tree with the compilable-source suffixes. -/
def find_srcs (entries : List (Except String DirEntry)) : Except String (List String) :=
  find_file entries src_extensions

/-- `find_code` walks the `src` tree additionally accepting header suffixes. -/
def find_code (entries : List (Except String DirEntry)) : Except String (List String) :=
  find_file entries code_extensions

/-- `find_objects` walks `build/<subdir>` for `.o` artifacts. -/
def find_objects (entries : List (Except String DirEntry)) : Except String (List String) :=
  find_file entries object_extensions

/-! ## Object-path derivation (`compile_all_objects`, lines 283-298)

`Path::with_extension("o")` replaces the extension of the last path
component: the part after the last dot is dropped, unless that dot is the
leading character of the component (a hidden file has no extension). -/

def lastIdxOf (c : Char) : List Char → Option Nat
  | [] => none
  | x :: xs =>
    match lastIdxOf c xs with
    | some i => some (i + 1)
    | none => if x = c then some 0 else none

/-- The file stem of one path component, as Rust computes it. -/
def file_stem (name : List Char) : List Char :=
  match lastIdxOf '.' name with
  | none => name
  | some 0 => name
  | some i => name.take i

/-- Model of `Path::new(p).with_extension("o")`. -/
def with_extension_o (p : String) : String :=
  match lastIdxOf SEPARATOR p.data with
  | none => String.mk (file_stem p.data ++ ".o".data)
  | some i =>
    String.mk (p.data.take (i + 1) ++ file_stem (p.data.drop (i + 1)) ++ ".o".data)

/-- The object output path built for one source file in `compile_all_objects`. -/
def object_path (build_subdir : String) (src : String) : String :=
  BUILD_DIR ++ SEP ++ build_subdir ++ SEP ++ with_extension_o src

/-- The per-source compile parameter tuples built by `compile_all_objects`:
(compiler, flags, input, output). -/
def compile_parameters (compiler : String) (flags : List String)
    (build_subdir : String) (source_files : List String) :
    List (String × List String × String × String) :=
  source_files.map (fun src => (compiler, flags, src, object_path build_subdir src))

/-! ## Result aggregation (`compile_all_objects`, lines 300-313)

The `for result in results` loop returns at the first `Err` or the first
`Ok(false)` it meets, in the order the scheduler collected the results. -/

def aggregate_results : List (Except String Bool) → Except String Bool
  | [] => .ok true
  | .ok true :: rest => aggregate_results rest
  | .ok false :: _ => .ok false
  | .error e :: _ => .error e

/-- `compile_all_objects`, with the source discovery outcome and the
scheduler's collected per-job results as explicit inputs. -/
def compile_all_objects (srcs : Except String (List String))
    (results : List (Except String Bool)) : Except String Bool :=
  match srcs with
  | .error e => .error e
  | .ok _ => aggregate_results results

/-! ## compile_object (lines 224-273): event trace of one compile job

The external effects of `compile_object` are recorded as an ordered event
list.  `Command::output()` spawns the compiler, waits for it to exit, and
only then hands back its captured stdout/stderr, so it is one event: the
captured output exists only once the process has completed.  The outcomes
of the effectful calls (`create_dir_all`, `output()`, the two `write_all`s)
are explicit inputs. -/

structure ProcessOutput where
  stdout : String
  stderr : String
  statusSuccess : Bool
deriving DecidableEq

inductive CmdEvent where
  | createDirAll : String → CmdEvent
  | runProcessToCompletion : String → List String → CmdEvent
  | writeAllStdout : String → CmdEvent
  | writeAllStderr : String → CmdEvent
deriving DecidableEq

/-- Model of `Path::parent()`: everything before the last separator; `none`
for the empty path, the empty path for a bare file name. -/
def parent_dir (p : String) : Option String :=
  match lastIdxOf SEPARATOR p.data with
  | some i => some (String.mk (p.data.take i))
  | none => if p = "" then none else some ""

/-- The argument list `compile_object` gives the compiler. -/
def compile_args (flags : List String) (input output : String) : List String :=
  flags ++ ["-c", "-fcolor-diagnostics", "-o" ++ output, input]

/-- The part of `compile_object` after directory creation: run the compiler
to completion, then forward its captured stdout and stderr. -/
def compile_object_run (compiler : String) (args : List String)
    (procResult : Except String ProcessOutput)
    (stdoutWrite stderrWrite : Except String Unit) :
    Except String Bool × List CmdEvent :=
  match procResult with
  | .error e =>
    (.error ("Can't start compiler : " ++ e), [.runProcessToCompletion compiler args])
  | .ok out =>
    match stdoutWrite with
    | .error e =>
      (.error ("Can't write to stdout : " ++ e),
        [.runProcessToCompletion compiler args, .writeAllStdout out.stdout])
    | .ok _ =>
      match stderrWrite with
      | .error e =>
        (.error ("Can't write to stderr : " ++ e),
          [.runProcessToCompletion compiler args, .writeAllStdout out.stdout,
            .writeAllStderr out.stderr])
      | .ok _ =>
        (.ok out.statusSuccess,
          [.runProcessToCompletion compiler args, .writeAllStdout out.stdout,
            .writeAllStderr out.stderr])

/-- `compile_object` on one parameter tuple (compiler, flags, input, output). -/
def compile_object (options : String × List String × String × String)
    (dirResult : Except String Unit) (procResult : Except String ProcessOutput)
    (stdoutWrite stderrWrite : Except String Unit) :
    Except String Bool × List CmdEvent :=
  match parent_dir options.2.2.2 with
  | none =>
    compile_object_run options.1 (compile_args options.2.1 options.2.2.1 options.2.2.2)
      procResult stdoutWrite stderrWrite
  | some parent =>
    match dirResult with
    | .error e => (.error ("Can't create build folder : " ++ e), [.createDirAll parent])
    | .ok _ =>
      ((compile_object_run options.1
          (compile_args options.2.1 options.2.2.1 options.2.2.2)
          procResult stdoutWrite stderrWrite).1,
        .createDirAll parent ::
          (compile_object_run options.1
            (compile_args options.2.1 options.2.2.1 options.2.2.2)
            procResult stdoutWrite stderrWrite).2)

/-! ## link_program (lines 316-348) and build (lines 350-385) -/

/-- One recorded invocation of the linker. -/
structure LinkCall where
  program : String
  flags : List String
  outputArg : String
  objects : List String
deriving DecidableEq

/-- `link_program`: scan `build/<subdir>` for objects, create the output
directory, then invoke the compiler once as a linker.  The walk of the
output directory and the outcomes of `create_dir_all` and `status()` are
explicit inputs.  The second component records the link invocations made. -/
def link_program (compiler : String) (flags : List String) (build_subdir : String)
    (buildEntries : List (Except String DirEntry))
    (dirResult : Except String Unit) (linkStatus : Except String Bool) :
    Except String Bool × List LinkCall :=
  match find_objects buildEntries with
  | .error e => (.error e, [])
  | .ok obj_files =>
    let subdir := BUILD_DIR ++ SEP ++ build_subdir
    match dirResult with
    | .error e => (.error ("Can't create " ++ subdir ++ " directory : " ++ e), [])
    | .ok _ =>
      let call : LinkCall :=
        ⟨compiler, flags, "-o" ++ subdir ++ SEP ++ "app", obj_files⟩
      match linkStatus with
      | .ok success => (.ok success, [call])
      | .error e => (.error ("Can't start compiler : " ++ e), [call])

/-- The flag list `build` assembles before compiling: common flags, then the
variant's flags, then the include-path flag. -/
def build_flags (flags debug_flags release_flags : List String)
    (release : Bool) : List String :=
  (flags ++ (if release then release_flags else debug_flags)) ++ ["-I" ++ INCLUDE_DIR]

/-- `build`: run `compile_all_objects`; on `Ok(true)` append the linker
flags and invoke `link_program` once, on `Ok(false)` report the failed
build, on `Err` propagate it (the `?` operator).  The second component
records the link invocations made. -/
def build (compiler : String) (flags linker_flags : List String) (build_subdir : String)
    (compileOutcome : Except String Bool)
    (buildEntries : List (Except String DirEntry))
    (linkDirResult : Except String Unit) (linkStatus : Except String Bool) :
    Except String Bool × List LinkCall :=
  match compileOutcome with
  | .error e => (.error e, [])
  | .ok false => (.ok false, [])
  | .ok true =>
    link_program compiler (flags ++ linker_flags) build_subdir buildEntries
      linkDirResult linkStatus

/-! ## ConfigResolver (lines 67-181)

A parsed TOML table is an association list from keys to values.  Only the
shapes the resolver distinguishes matter: strings, arrays, and everything
else (`other` stands for integers, floats, booleans, dates, and nested
tables alike — `as_str` and `as_array` reject them all the same way). -/

inductive TomlValue where
  | str : String → TomlValue
  | arr : List TomlValue → TomlValue
  | other : TomlValue

def Table := List (String × TomlValue)

/-- Key lookup in the parsed table (`toml::Map::get`). -/
def lookupKey : Table → String → Option TomlValue
  | [], _ => none
  | p :: rest, k => if p.1 = k then some p.2 else lookupKey rest k

/-- `Value::as_str`. -/
def as_str : TomlValue → Option String
  | .str s => some s
  | _ => none

/-- The element loop of `read_string_list_key`: every element must be a
string, otherwise the list has no string-list reading. -/
def as_str_all : List TomlValue → Option (List String)
  | [] => some []
  | v :: rest =>
    match as_str v with
    | some s => (as_str_all rest).map (fun tail => s :: tail)
    | none => none

/-- `Value::as_array` followed by the element loop. -/
def as_str_list : TomlValue → Option (List String)
  | .arr vs => as_str_all vs
  | _ => none

def string_type_error (key_name : String) : String :=
  key_name ++ " value must be a string"

def list_type_error (key_name : String) : String :=
  key_name ++ " value must be an array of string"

/-- `read_string_key`: absent key is fine (`Ok(None)`), a present
non-string value is a type error naming the key. -/
def read_string_key (toml : Table) (key_name : String) :
    Except String (Option String) :=
  match lookupKey toml key_name with
  | none => .ok none
  | some v =>
    match as_str v with
    | some s => .ok (some s)
    | none => .error (string_type_error key_name)

/-- `read_string_list_key`: absent key is fine, a present value that is not
an array of strings is a type error naming the key. -/
def read_string_list_key (toml : Table) (key_name : String) :
    Except String (Option (List String)) :=
  match lookupKey toml key_name with
  | none => .ok none
  | some v =>
    match as_str_list v with
    | some vs => .ok (some vs)
    | none => .error (list_type_error key_name)

structure Config where
  compiler : String
  debugger : String
  linter : String
  flags : List String
  debug_flags : List String
  release_flags : List String
  linker_flags : List String
  linter_checks : String
deriving DecidableEq

/-- `default_configuration`. -/
def default_configuration : Config :=
  ⟨DEFAULT_COMPILER, DEFAULT_DEBUGGER, DEFAULT_LINTER, DEFAULT_FLAGS,
    DEFAULT_DEBUG_FLAGS, DEFAULT_RELEASE_FLAGS, DEFAULT_LINKER_FLAGS,
    DEFAULT_LINTER_CHECKS⟩

/-- `read_string_key(...)?.unwrap_or_else(default)`. -/
def resolve_string (toml : Table) (key_name d : String) : Except String String :=
  match read_string_key toml key_name with
  | .error e => .error e
  | .ok o => .ok (o.getD d)

/-- `read_string_list_key(...)?.unwrap_or_else(default)`. -/
def resolve_string_list (toml : Table) (key_name : String) (d : List String) :
    Except String (List String) :=
  match read_string_list_key toml key_name with
  | .error e => .error e
  | .ok o => .ok (o.getD d)

/-- The key-resolution chain of `read_configuration`, in source order, on an
already-parsed table.  The surrounding file read and TOML parse only decide
whether this chain runs at all. -/
def read_configuration (toml : Table) : Except String Config :=
  (resolve_string toml COMPILER_KEY DEFAULT_COMPILER).bind fun compiler =>
  (resolve_string toml DEBUGGER_KEY DEFAULT_DEBUGGER).bind fun debugger =>
  (resolve_string toml LINTER_KEY DEFAULT_LINTER).bind fun linter =>
  (resolve_string_list toml FLAGS_KEY DEFAULT_FLAGS).bind fun flags =>
  (resolve_string_list toml DEBUG_FLAGS_KEY DEFAULT_DEBUG_FLAGS).bind fun debug_flags =>
  (resolve_string_list toml RELEASE_FLAGS_KEY DEFAULT_RELEASE_FLAGS).bind fun release_flags =>
  (resolve_string_list toml LINKER_FLAGS_KEY DEFAULT_LINKER_FLAGS).bind fun linker_flags =>
  (resolve_string toml LINTER_CHECKS_KEY DEFAULT_LINTER_CHECKS).bind fun linter_checks =>
  Except.ok ⟨compiler, debugger, linter, flags, debug_flags, release_flags,
    linker_flags, linter_checks⟩

/-! Recognized keys, their shapes, defaults, and per-key views of a
resolved configuration, for stating the configuration claims. -/

inductive KeyKind where
  | str : KeyKind
  | strList : KeyKind
deriving DecidableEq

/-- The eight recognized configuration keys. -/
inductive ConfigKey where
  | compiler : ConfigKey
  | debugger : ConfigKey
  | linter : ConfigKey
  | flags : ConfigKey
  | debugFlags : ConfigKey
  | releaseFlags : ConfigKey
  | linkerFlags : ConfigKey
  | linterChecks : ConfigKey
deriving DecidableEq

/-- The recognized keys in the order `read_configuration` resolves them. -/
def configKeys : List ConfigKey :=
  [.compiler, .debugger, .linter, .flags, .debugFlags, .releaseFlags,
    .linkerFlags, .linterChecks]

/-- The document key each recognized key reads. -/
def key_name : ConfigKey → String
  | .compiler => COMPILER_KEY
  | .debugger => DEBUGGER_KEY
  | .linter => LINTER_KEY
  | .flags => FLAGS_KEY
  | .debugFlags => DEBUG_FLAGS_KEY
  | .releaseFlags => RELEASE_FLAGS_KEY
  | .linkerFlags => LINKER_FLAGS_KEY
  | .linterChecks => LINTER_CHECKS_KEY

/-- The expected shape of each recognized key. -/
def key_kind : ConfigKey → KeyKind
  | .compiler => .str
  | .debugger => .str
  | .linter => .str
  | .flags => .strList
  | .debugFlags => .strList
  | .releaseFlags => .strList
  | .linkerFlags => .strList
  | .linterChecks => .str

/-- The documented default of each recognized key; string values on the
left, string-list values on the right. -/
def key_default : ConfigKey → String ⊕ List String
  | .compiler => .inl DEFAULT_COMPILER
  | .debugger => .inl DEFAULT_DEBUGGER
  | .linter => .inl DEFAULT_LINTER
  | .flags => .inr DEFAULT_FLAGS
  | .debugFlags => .inr DEFAULT_DEBUG_FLAGS
  | .releaseFlags => .inr DEFAULT_RELEASE_FLAGS
  | .linkerFlags => .inr DEFAULT_LINKER_FLAGS
  | .linterChecks => .inl DEFAULT_LINTER_CHECKS

/-- The field of a resolved configuration belonging to one recognized key. -/
def field_of (c : Config) : ConfigKey → String ⊕ List String
  | .compiler => .inl c.compiler
  | .debugger => .inl c.debugger
  | .linter => .inl c.linter
  | .flags => .inr c.flags
  | .debugFlags => .inr c.debug_flags
  | .releaseFlags => .inr c.release_flags
  | .linkerFlags => .inr c.linker_flags
  | .linterChecks => .inl c.linter_checks

/-- A string key is present in the table with a shape `read_string_key`
rejects. -/
def wrong_string (toml : Table) (k : String) : Bool :=
  match lookupKey toml k with
  | some v => (as_str v).isNone
  | none => false

/-- A list key is present in the table with a shape `read_string_list_key`
rejects. -/
def wrong_list (toml : Table) (k : String) : Bool :=
  match lookupKey toml k with
  | some v => (as_str_list v).isNone
  | none => false

/-- The recognized key is present in the table with the wrong shape. -/
def wrongShaped (toml : Table) (k : ConfigKey) : Bool :=
  match key_kind k with
  | .str => wrong_string toml (key_name k)
  | .strList => wrong_list toml (key_name k)

/-- The type-error message the reader of the recognized key raises. -/
def type_error_message (k : ConfigKey) : String :=
  match key_kind k with
  | .str => string_type_error (key_name k)
  | .strList => list_type_error (key_name k)

/-- Removing every binding of one key from a table: the table that differs
from the given one only in that this key is omitted. -/
def eraseKey : Table → String → Table
  | [], _ => []
  | p :: rest, k => if p.1 = k then eraseKey rest k else p :: eraseKey rest k

/-! ## CompilationScheduler: `parallel_run` (src/parallel_runner.rs)

The worker pool is modelled as a small-step transition system.  A worker is
idle (about to lock the shared iterator), running one popped item, or
finished (it observed the iterator exhausted and broke out of its loop).
The mutex serializes iterator pops and result pushes, so each of the three
worker actions is one atomic step; any interleaving of workers is a path of
the relation.  The ghost field `executed` records, in completion order, the
items to which `function` has been applied; `results` is the shared output
vector, to which each worker pushes `function value` right after computing
it, so `results` is always `executed.map f`. -/

inductive WStatus (I : Type) where
  | idle : WStatus I
  | running : I → WStatus I
  | finished : WStatus I
deriving DecidableEq

structure PoolState (I O : Type) where
  pending : List I
  workers : List (WStatus I)
  results : List O
  executed : List I
deriving DecidableEq

/-- The pool at entry of `parallel_run`: the whole input vector behind the
iterator, `n` spawned idle workers, nothing produced. -/
def initState (I O : Type) (data : List I) (n : Nat) : PoolState I O :=
  ⟨data, List.replicate n .idle, [], []⟩

/-- The items currently held by running workers. -/
def runningTasks {I : Type} : List (WStatus I) → List I
  | [] => []
  | .running x :: ws => x :: runningTasks ws
  | .idle :: ws => runningTasks ws
  | .finished :: ws => runningTasks ws

/-- One atomic action of one worker of `parallel_run`.
`pop`: an idle worker locks the iterator and receives the next item.
`popNone`: an idle worker locks the exhausted iterator and breaks.
`finish`: a running worker completes `function value` and pushes the result
onto the shared output vector. -/
inductive PoolStep {I O : Type} (f : I → O) : PoolState I O → PoolState I O → Prop where
  | pop (l r : List (WStatus I)) (x : I) (rest : List I) (res : List O) (ex : List I) :
      PoolStep f ⟨x :: rest, l ++ .idle :: r, res, ex⟩
        ⟨rest, l ++ .running x :: r, res, ex⟩
  | popNone (l r : List (WStatus I)) (res : List O) (ex : List I) :
      PoolStep f ⟨[], l ++ .idle :: r, res, ex⟩
        ⟨[], l ++ .finished :: r, res, ex⟩
  | finish (l r : List (WStatus I)) (x : I) (p : List I) (res : List O) (ex : List I) :
      PoolStep f ⟨p, l ++ .running x :: r, res, ex⟩
        ⟨p, l ++ .idle :: r, res ++ [f x], ex ++ [x]⟩

/-- `parallel_run` returns only once `join` has succeeded on every worker:
every worker has observed the exhausted iterator and finished. -/
def allFinished {I O : Type} (s : PoolState I O) : Prop :=
  ∀ w ∈ s.workers, w = WStatus.finished

/-- The inductive invariant of one `parallel_run` invocation over `data`
with `n` workers: every input item is pending, held by a running worker, or
already executed, with the right multiplicities; the output vector holds
exactly the function values of the executed items; the pool size is fixed;
and no worker breaks out of its loop before the iterator is exhausted. -/
def PoolInv {I O : Type} (f : I → O) (data : List I) (n : Nat)
    (s : PoolState I O) : Prop :=
  ((s.pending : Multiset I) + (runningTasks s.workers : Multiset I) +
      (s.executed : Multiset I) = (data : Multiset I)) ∧
  s.results = s.executed.map f ∧
  s.workers.length = n ∧
  (s.pending = [] ∨ WStatus.finished ∉ s.workers)

theorem runningTasks_append {I : Type} (l r : List (WStatus I)) :
    runningTasks (l ++ r) = runningTasks l ++ runningTasks r := by
  induction l with
  | nil => rfl
  | cons w ws ih => cases w <;> simp [runningTasks, ih]

theorem runningTasks_eq_nil {I : Type} (ws : List (WStatus I))
    (h : ∀ w ∈ ws, w = WStatus.finished) : runningTasks ws = [] := by
  induction ws with
  | nil => rfl
  | cons w ws ih =>
    have hw := h w (by simp)
    subst hw
    simpa [runningTasks] using ih (fun w hw => h w (by simp [hw]))

theorem runningTasks_replicate_idle {I : Type} (n : Nat) :
    runningTasks (List.replicate n (WStatus.idle : WStatus I)) = [] := by
  induction n with
  | zero => rfl
  | succ n ih => simpa [List.replicate, runningTasks] using ih

theorem poolInv_init {I O : Type} (f : I → O) (data : List I) (n : Nat) :
    PoolInv f data n (initState I O data n) := by
  refine ⟨?_, rfl, by simp [initState], Or.inr ?_⟩
  · simp [initState, runningTasks_replicate_idle]
  · simp [initState, List.mem_replicate]

theorem poolInv_step {I O : Type} {f : I → O} {data : List I} {n : Nat}
    {s t : PoolState I O} (hstep : PoolStep f s t) (hinv : PoolInv f data n s) :
    PoolInv f data n t := by
  obtain ⟨hms, hres, hlen, hdisj⟩ := hinv
  cases hstep with
  | pop l r x rest res ex =>
    dsimp only at hms hres hlen hdisj ⊢
    refine ⟨?_, hres, ?_, ?_⟩
    · simp only [runningTasks_append, runningTasks] at hms ⊢
      rw [← hms]
      simp only [← Multiset.cons_coe, ← Multiset.coe_add, ← Multiset.singleton_add]
      abel
    · simpa using hlen
    · rcases hdisj with h | h
      · exact absurd h (by simp)
      · refine Or.inr ?_
        simp only [List.mem_append, List.mem_cons] at h ⊢
        push_neg at h ⊢
        exact ⟨h.1, by simp, h.2.2⟩
  | popNone l r res ex =>
    dsimp only at hms hres hlen hdisj ⊢
    refine ⟨?_, hres, ?_, Or.inl rfl⟩
    · simpa only [runningTasks_append, runningTasks] using hms
    · simpa using hlen
  | finish l r x p res ex =>
    dsimp only at hms hres hlen hdisj ⊢
    refine ⟨?_, ?_, ?_, ?_⟩
    · simp only [runningTasks_append, runningTasks] at hms ⊢
      rw [← hms]
      simp only [← Multiset.cons_coe, ← Multiset.coe_add, ← Multiset.singleton_add]
      abel
    · simp [hres]
    · simpa using hlen
    · rcases hdisj with h | h
      · exact Or.inl h
      · refine Or.inr ?_
        simp only [List.mem_append, List.mem_cons] at h ⊢
        push_neg at h ⊢
        exact ⟨h.1, by simp, h.2.2⟩

theorem poolInv_steps {I O : Type} {f : I → O} {data : List I} {n : Nat}
    {s t : PoolState I O} (h : Relation.ReflTransGen (PoolStep f) s t)
    (hs : PoolInv f data n s) : PoolInv f data n t := by
  induction h with
  | refl => exact hs
  | tail _ hbc ih => exact poolInv_step hbc ih

/-- The task function of the witness run: its failures are ordinary
`Except.error` values, as `compile_object`'s are. -/
def witnessTask (x : Nat) : Except String Nat :=
  if x == 1 then .error "boom" else .ok x

/-- The pool state in which the witness run ends. -/
def witnessFinal : PoolState Nat (Except String Nat) :=
  ⟨[], [.finished], [.error "boom", .ok 2], [1, 2]⟩

end Embargo

namespace Embargo

/-- Claim C1: for every input list of N tasks (N ≥ 0) and every worker-pool
size (including 1), any completed `parallel_run` execution — any path of the
pool relation from the initial state to a state where every worker has
finished — has applied the task function to each input exactly once (the
executed items are a permutation of the inputs), and the returned collection
holds exactly the N results of those applications; a task's failure is just
a returned value of the result type, so it neither prevents any other task
from being executed nor lets the pool stop before every task has completed. -/
theorem parallel_run_each_task_once {I O : Type} (f : I → O) (data : List I)
    (n : Nat) (hn : 0 < n) (s : PoolState I O)
    (hrun : Relation.ReflTransGen (PoolStep f) (initState I O data n) s)
    (hfin : allFinished s) :
    s.executed.Perm data ∧ s.results = s.executed.map f ∧
      s.results.length = data.length := by
  have hinv := poolInv_steps hrun (poolInv_init f data n)
  obtain ⟨hms, hres, hlen, hdisj⟩ := hinv
  have hrt : runningTasks s.workers = [] := runningTasks_eq_nil _ hfin
  have hpend : s.pending = [] := by
    rcases hdisj with h | h
    · exact h
    · exfalso
      have hne : s.workers ≠ [] := by
        intro he
        rw [he] at hlen
        simp at hlen
        omega
      obtain ⟨w, hw⟩ := List.exists_mem_of_ne_nil s.workers hne
      exact h ((hfin w hw) ▸ hw)
  rw [hpend, hrt] at hms
  simp at hms
  exact ⟨hms, hres, by rw [hres]; simp [hms.length_eq]⟩

/-- Witness for C1: a concrete complete run with pool size 1 over the two
tasks `[1, 2]`, where task 1 fails; both tasks are executed, the failure is
returned as a value, and both results come back. -/
theorem parallel_run_each_task_once_witness :
    0 < 1 ∧ witnessFinal.executed.Perm [1, 2] ∧
      witnessFinal.results = witnessFinal.executed.map witnessTask ∧
      witnessFinal.results.length = ([1, 2] : List Nat).length := by
  refine ⟨by decide, ?_⟩
  refine parallel_run_each_task_once witnessTask [1, 2] 1 (by decide) witnessFinal
    ?_ (by decide : ∀ w ∈ witnessFinal.workers, w = WStatus.finished)
  exact Relation.ReflTransGen.head (PoolStep.pop [] [] 1 [2] [] [])
    (Relation.ReflTransGen.head (PoolStep.finish [] [] 1 [2] [] [])
      (Relation.ReflTransGen.head (PoolStep.pop [] [] 2 [] [Except.error "boom"] [1])
        (Relation.ReflTransGen.head
          (PoolStep.finish [] [] 2 [] [Except.error "boom"] [1])
          (Relation.ReflTransGen.head
            (PoolStep.popNone [] [] [Except.error "boom", Except.ok 2] [1, 2])
            Relation.ReflTransGen.refl))))

end Embargo

namespace Embargo

/-! ## Lemmas about the result-aggregation loop -/

theorem aggregate_results_all_ok (results : List (Except String Bool))
    (h : ∀ r ∈ results, r = Except.ok true) :
    aggregate_results results = .ok true := by
  induction results with
  | nil => rfl
  | cons hd rest ih =>
    have hhd := h hd (by simp)
    subst hhd
    simpa [aggregate_results] using ih (fun r hr => h r (by simp [hr]))

theorem aggregate_results_ne_ok_true (results : List (Except String Bool))
    (h : Except.ok false ∈ results) :
    aggregate_results results ≠ .ok true := by
  induction results with
  | nil => cases h
  | cons hd rest ih =>
    rcases List.mem_cons.mp h with h1 | h1
    · rw [← h1]
      simp [aggregate_results]
    · cases hd with
      | error e => simp [aggregate_results]
      | ok b =>
        cases b with
        | false => simp [aggregate_results]
        | true => simpa [aggregate_results] using ih h1

theorem aggregate_results_no_error (results : List (Except String Bool))
    (hmem : Except.ok false ∈ results) (hnoerr : ∀ e, Except.error e ∉ results) :
    aggregate_results results = .ok false := by
  induction results with
  | nil => cases hmem
  | cons hd rest ih =>
    cases hd with
    | error e => exact absurd (by simp) (hnoerr e)
    | ok b =>
      cases b with
      | false => rfl
      | true =>
        have h1 : Except.ok false ∈ rest := by
          rcases List.mem_cons.mp hmem with h | h
          · cases h
          · exact h
        have h2 : ∀ e, Except.error e ∉ rest := by
          intro e he
          exact hnoerr e (by simp [he])
        simpa [aggregate_results] using ih h1 h2

theorem aggregate_results_error (results : List (Except String Bool))
    (e : String) (hmem : Except.error e ∈ results)
    (hnof : Except.ok false ∉ results) :
    ∃ e2, aggregate_results results = .error e2 ∧ Except.error e2 ∈ results := by
  induction results with
  | nil => cases hmem
  | cons hd rest ih =>
    cases hd with
    | error e3 => exact ⟨e3, rfl, by simp⟩
    | ok b =>
      cases b with
      | false => exact absurd (by simp) hnof
      | true =>
        have h1 : Except.error e ∈ rest := by
          rcases List.mem_cons.mp hmem with h | h
          · cases h
          · exact h
        have h2 : Except.ok false ∉ rest := fun h => hnof (by simp [h])
        obtain ⟨e2, he2, hmem2⟩ := ih h1 h2
        exact ⟨e2, by simpa [aggregate_results] using he2, by simp [hmem2]⟩

/-- Claim C2, counterexample to the claim as stated: with the collected
result order `[ToolLaunchError, CompilerFailure]` — an order the scheduler
can produce — the aggregation loop hits the `Err` first, so `build`
propagates `Error("no compiler")` rather than reporting `BuildFailed`,
although a `CompilerFailure` is among the results. -/
theorem compiler_failure_outcome_cex :
    Except.ok false ∈
      ([Except.error "no compiler", Except.ok false] : List (Except String Bool)) ∧
    (build DEFAULT_COMPILER [] [] DEBUG_BUILD_SUBDIR
        (compile_all_objects (.ok [])
          [Except.error "no compiler", Except.ok false])
        [] (.ok ()) (.ok true)).1 = .error "no compiler" := by
  constructor
  · simp
  · rfl

/-- Claim C2 (amended): if any one of the compile job results is a
`CompilerFailure`, the link step is invoked zero times; and if moreover no
result is a `ToolLaunchError`, the pipeline outcome is `BuildFailed`
(`Ok(false)`).  With a `ToolLaunchError` also present, the outcome is
whichever of the two failures the collected order presents first. -/
theorem compiler_failure_build_failed (compiler : String)
    (flags linker_flags : List String) (subdir : String) (srcs : List String)
    (results : List (Except String Bool))
    (buildEntries : List (Except String DirEntry))
    (linkDir : Except String Unit) (linkStatus : Except String Bool)
    (hmem : Except.ok false ∈ results) :
    (build compiler flags linker_flags subdir
        (compile_all_objects (.ok srcs) results)
        buildEntries linkDir linkStatus).2 = [] ∧
    ((∀ e, Except.error e ∉ results) →
      build compiler flags linker_flags subdir
        (compile_all_objects (.ok srcs) results)
        buildEntries linkDir linkStatus = (.ok false, [])) := by
  constructor
  · have hne := aggregate_results_ne_ok_true results hmem
    unfold build compile_all_objects
    cases hagg : aggregate_results results with
    | error e => rfl
    | ok b =>
      cases b with
      | false => rfl
      | true => exact absurd hagg hne
  · intro hnoerr
    have hagg := aggregate_results_no_error results hmem hnoerr
    unfold build compile_all_objects
    rw [hagg]

/-- Witness for C2: one failed compile among two jobs, no launch error. -/
theorem compiler_failure_build_failed_witness :
    Except.ok false ∈ ([Except.ok true, Except.ok false] : List (Except String Bool)) ∧
    (build DEFAULT_COMPILER [] [] DEBUG_BUILD_SUBDIR
        (compile_all_objects (.ok ["src/a.cpp", "src/b.cpp"])
          [Except.ok true, Except.ok false])
        [] (.ok ()) (.ok true)).2 = [] ∧
    build DEFAULT_COMPILER [] [] DEBUG_BUILD_SUBDIR
        (compile_all_objects (.ok ["src/a.cpp", "src/b.cpp"])
          [Except.ok true, Except.ok false])
        [] (.ok ()) (.ok true) = (.ok false, []) := by
  refine ⟨by simp, ?_⟩
  have h := compiler_failure_build_failed DEFAULT_COMPILER [] [] DEBUG_BUILD_SUBDIR
    ["src/a.cpp", "src/b.cpp"] [Except.ok true, Except.ok false] [] (.ok ()) (.ok true)
    (by simp)
  exact ⟨h.1, h.2 (by intro e he; simp at he)⟩

/-- Claim C3, counterexample to the claim as stated: with the collected
result order `[CompilerFailure, ToolLaunchError]` the aggregation loop hits
the `Ok(false)` first, so the pipeline outcome is `BuildFailed`
(`Ok(false)`), not `Error`, although a `ToolLaunchError` is among the
results — the outcome is not independent of the other job results. -/
theorem tool_launch_error_outcome_cex :
    Except.error "no compiler" ∈
      ([Except.ok false, Except.error "no compiler"] : List (Except String Bool)) ∧
    (build DEFAULT_COMPILER [] [] DEBUG_BUILD_SUBDIR
        (compile_all_objects (.ok [])
          [Except.ok false, Except.error "no compiler"])
        [] (.ok ()) (.ok true)).1 = .ok false := by
  constructor
  · simp
  · rfl

/-- Claim C3 (amended): if some compile job result is a `ToolLaunchError`
and no result is a `CompilerFailure`, then once all jobs have finished the
pipeline outcome is `Error` carrying the message of a `ToolLaunchError`
among the results, and the link step is never invoked.  When a
`CompilerFailure` is also present, the collected order decides which of the
two failure outcomes is reported. -/
theorem tool_launch_error_outcome (compiler : String)
    (flags linker_flags : List String) (subdir : String) (srcs : List String)
    (results : List (Except String Bool))
    (buildEntries : List (Except String DirEntry))
    (linkDir : Except String Unit) (linkStatus : Except String Bool)
    (e : String) (hmem : Except.error e ∈ results)
    (hnof : Except.ok false ∉ results) :
    ∃ e2, Except.error e2 ∈ results ∧
      build compiler flags linker_flags subdir
        (compile_all_objects (.ok srcs) results)
        buildEntries linkDir linkStatus = (.error e2, []) := by
  obtain ⟨e2, hagg, hmem2⟩ := aggregate_results_error results e hmem hnof
  refine ⟨e2, hmem2, ?_⟩
  unfold build compile_all_objects
  rw [hagg]

/-- Witness for C3: one launch error among two jobs, no compiler failure. -/
theorem tool_launch_error_outcome_witness :
    Except.error "no compiler" ∈
      ([Except.ok true, Except.error "no compiler"] : List (Except String Bool)) ∧
    Except.ok false ∉
      ([Except.ok true, Except.error "no compiler"] : List (Except String Bool)) ∧
    ∃ e2, Except.error e2 ∈
        ([Except.ok true, Except.error "no compiler"] : List (Except String Bool)) ∧
      build DEFAULT_COMPILER [] [] DEBUG_BUILD_SUBDIR
        (compile_all_objects (.ok ["src/a.cpp", "src/b.cpp"])
          [Except.ok true, Except.error "no compiler"])
        [] (.ok ()) (.ok true) = (.error e2, []) :=
  ⟨by simp, by simp, tool_launch_error_outcome DEFAULT_COMPILER [] [] DEBUG_BUILD_SUBDIR
    ["src/a.cpp", "src/b.cpp"] [Except.ok true, Except.error "no compiler"] []
    (.ok ()) (.ok true) "no compiler" (by simp) (by simp)⟩

/-- Claim C4: if all N compile job results are successes — including N = 0 —
then exactly one link invocation occurs, and its object-file argument list
is exactly what scanning the active variant's output directory for the `.o`
suffix returns at that moment. -/
theorem all_success_links_once (compiler : String)
    (flags linker_flags : List String) (subdir : String) (srcs : List String)
    (results : List (Except String Bool))
    (buildEntries : List (Except String DirEntry))
    (linkStatus : Except String Bool) (objs : List String)
    (hall : ∀ r ∈ results, r = Except.ok true)
    (hscan : find_objects buildEntries = .ok objs) :
    (build compiler flags linker_flags subdir
        (compile_all_objects (.ok srcs) results)
        buildEntries (.ok ()) linkStatus).2 =
      [⟨compiler, flags ++ linker_flags,
        "-o" ++ (BUILD_DIR ++ SEP ++ subdir) ++ SEP ++ "app", objs⟩] := by
  have hagg := aggregate_results_all_ok results hall
  unfold build compile_all_objects
  rw [hagg]
  unfold link_program
  rw [hscan]
  cases linkStatus <;> rfl

/-- Witness for C4, at the empty catalog (N = 0): the empty result list is
all-successes, and one link call over the scanned objects happens. -/
theorem all_success_links_once_witness :
    (∀ r ∈ ([] : List (Except String Bool)), r = Except.ok true) ∧
    find_objects [Except.ok ⟨"x.o", "build/debug/src/x.o", true⟩] =
      .ok ["build/debug/src/x.o"] ∧
    (build DEFAULT_COMPILER ["-Wall"] [] DEBUG_BUILD_SUBDIR
        (compile_all_objects (.ok []) [])
        [Except.ok ⟨"x.o", "build/debug/src/x.o", true⟩] (.ok ()) (.ok true)).2 =
      [⟨DEFAULT_COMPILER, ["-Wall"] ++ [],
        "-o" ++ (BUILD_DIR ++ SEP ++ DEBUG_BUILD_SUBDIR) ++ SEP ++ "app",
        ["build/debug/src/x.o"]⟩] :=
  ⟨by simp, by decide,
    all_success_links_once DEFAULT_COMPILER ["-Wall"] [] DEBUG_BUILD_SUBDIR []
      [] [Except.ok ⟨"x.o", "build/debug/src/x.o", true⟩] (.ok true)
      ["build/debug/src/x.o"] (by simp) (by decide)⟩

/-! ## Claim C7: stream forwarding in `compile_object` -/

def isRunEvent : CmdEvent → Bool
  | .runProcessToCompletion _ _ => true
  | _ => false

def isForwardEvent : CmdEvent → Bool
  | .writeAllStdout _ => true
  | .writeAllStderr _ => true
  | _ => false

/-- The claim's property, stated over the event trace of one compile job:
all forwarding of the spawned process's output to the invoking process's
streams happens while the process is still running, that is, strictly
before the point at which the process runs to completion — not buffered and
replayed afterwards. -/
def liveForwarding (evs : List CmdEvent) : Prop :=
  ∀ (i j : Nat) (ei ej : CmdEvent), evs[i]? = some ei → evs[j]? = some ej →
    isRunEvent ei = true → isForwardEvent ej = true → j < i

/-- The trace of `compile_object_run` always starts with the
run-to-completion event, and nothing after it is another run event. -/
theorem compile_object_run_shape (compiler : String) (args : List String)
    (procResult : Except String ProcessOutput)
    (stdoutWrite stderrWrite : Except String Unit) :
    ∃ post, (compile_object_run compiler args procResult stdoutWrite stderrWrite).2 =
        CmdEvent.runProcessToCompletion compiler args :: post ∧
      ∀ e ∈ post, isRunEvent e = false := by
  cases procResult with
  | error e => exact ⟨[], rfl, by simp⟩
  | ok out =>
    cases stdoutWrite with
    | error e =>
      refine ⟨[CmdEvent.writeAllStdout out.stdout], rfl, ?_⟩
      intro e2 he2
      simp at he2
      rw [he2]
      rfl
    | ok u =>
      cases stderrWrite with
      | error e =>
        refine ⟨[CmdEvent.writeAllStdout out.stdout,
          CmdEvent.writeAllStderr out.stderr], rfl, ?_⟩
        intro e2 he2
        simp at he2
        rcases he2 with rfl | rfl
        · rfl
        · rfl
      | ok v =>
        refine ⟨[CmdEvent.writeAllStdout out.stdout,
          CmdEvent.writeAllStderr out.stderr], rfl, ?_⟩
        intro e2 he2
        simp at he2
        rcases he2 with rfl | rfl
        · rfl
        · rfl

/-- In a trace of the form `pre ++ run :: post` in which `pre` holds
neither run nor forwarding events and `post` holds no run event, every run
event strictly precedes every forwarding event. -/
theorem run_before_forwards (pre post : List CmdEvent) (c : String)
    (a : List String)
    (hpre : ∀ e ∈ pre, isRunEvent e = false ∧ isForwardEvent e = false)
    (hpost : ∀ e ∈ post, isRunEvent e = false)
    (i j : Nat) (ei ej : CmdEvent)
    (hi : (pre ++ CmdEvent.runProcessToCompletion c a :: post)[i]? = some ei)
    (hj : (pre ++ CmdEvent.runProcessToCompletion c a :: post)[j]? = some ej)
    (hri : isRunEvent ei = true) (hfj : isForwardEvent ej = true) : i < j := by
  have hilen : i = pre.length := by
    rcases Nat.lt_trichotomy i pre.length with h | h | h
    · exfalso
      rw [List.getElem?_append_left h] at hi
      have := (hpre ei (List.getElem?_mem hi)).1
      rw [this] at hri
      cases hri
    · exact h
    · exfalso
      rw [List.getElem?_append_right (le_of_lt h)] at hi
      cases hk : i - pre.length with
      | zero => omega
      | succ m =>
        rw [hk, List.getElem?_cons_succ] at hi
        have := hpost ei (List.getElem?_mem hi)
        rw [this] at hri
        cases hri
  have hjlen : pre.length < j := by
    rcases Nat.lt_trichotomy j pre.length with h | h | h
    · exfalso
      rw [List.getElem?_append_left h] at hj
      have := (hpre ej (List.getElem?_mem hj)).2
      rw [this] at hfj
      cases hfj
    · exfalso
      subst h
      rw [List.getElem?_append_right (le_refl pre.length)] at hj
      rw [Nat.sub_self, List.getElem?_cons_zero] at hj
      have hej : ej = CmdEvent.runProcessToCompletion c a := by
        injection hj with h2
        exact h2.symm
      rw [hej] at hfj
      cases hfj
    · exact h
  omega

/-- Claim C7, counterexample to the claim as stated: `compile_object` uses
`Command::output()`, which waits for the compiler to exit and hands back
its captured output; on a job whose compiler prints a warning, the trace
places both forwarding writes strictly after the run-to-completion event,
so the output is not forwarded live while the process runs. -/
theorem stream_forward_not_live_cex :
    ¬ liveForwarding (compile_object
        (DEFAULT_COMPILER, ["-Wall"], "src/x.cpp", "build/debug/src/x.o")
        (.ok ()) (.ok ⟨"warning: unused variable", "", true⟩)
        (.ok ()) (.ok ())).2 := by
  unfold liveForwarding
  intro h
  have h2 := h 1 2
    (CmdEvent.runProcessToCompletion DEFAULT_COMPILER
      (compile_args ["-Wall"] "src/x.cpp" "build/debug/src/x.o"))
    (CmdEvent.writeAllStdout "warning: unused variable") rfl rfl rfl rfl
  omega

/-- Claim C7 (amended): the spawned compiler's stdout and stderr are
captured while it runs and written to the invoking process's streams only
after the process has run to completion: in every trace of
`compile_object`, every run event strictly precedes every forwarding
event. -/
theorem stream_forward_after_exit (options : String × List String × String × String)
    (dirResult : Except String Unit) (procResult : Except String ProcessOutput)
    (stdoutWrite stderrWrite : Except String Unit)
    (i j : Nat) (ei ej : CmdEvent)
    (hi : (compile_object options dirResult procResult stdoutWrite stderrWrite).2[i]?
      = some ei)
    (hj : (compile_object options dirResult procResult stdoutWrite stderrWrite).2[j]?
      = some ej)
    (hri : isRunEvent ei = true) (hfj : isForwardEvent ej = true) : i < j := by
  obtain ⟨post, hshape, hpost⟩ := compile_object_run_shape options.1
    (compile_args options.2.1 options.2.2.1 options.2.2.2)
    procResult stdoutWrite stderrWrite
  rcases hpd : parent_dir options.2.2.2 with _ | parent
  · have htr : (compile_object options dirResult procResult stdoutWrite stderrWrite).2
        = (compile_object_run options.1
            (compile_args options.2.1 options.2.2.1 options.2.2.2)
            procResult stdoutWrite stderrWrite).2 := by
      unfold compile_object
      rw [hpd]
    rw [htr, hshape] at hi hj
    exact run_before_forwards [] post options.1 _ (by simp) hpost i j ei ej hi hj hri hfj
  · cases dirResult with
    | error e =>
      exfalso
      have htr : (compile_object options (.error e) procResult stdoutWrite stderrWrite).2
          = [CmdEvent.createDirAll parent] := by
        unfold compile_object
        rw [hpd]
      rw [htr] at hi
      have := List.getElem?_mem hi
      simp at this
      rw [this] at hri
      cases hri
    | ok u =>
      have htr : (compile_object options (.ok u) procResult stdoutWrite stderrWrite).2
          = CmdEvent.createDirAll parent ::
              (compile_object_run options.1
                (compile_args options.2.1 options.2.2.1 options.2.2.2)
                procResult stdoutWrite stderrWrite).2 := by
        unfold compile_object
        rw [hpd]
      rw [htr, hshape] at hi hj
      refine run_before_forwards [CmdEvent.createDirAll parent] post options.1 _
        ?_ hpost i j ei ej hi hj hri hfj
      intro e2 he2
      simp at he2
      rw [he2]
      exact ⟨rfl, rfl⟩

/-- Witness for C7's amended theorem: in the concrete trace of the
counterexample job, the run event sits at index 1 and the stdout forward at
index 2, and indeed 1 < 2. -/
theorem stream_forward_after_exit_witness :
    (compile_object (DEFAULT_COMPILER, ["-Wall"], "src/x.cpp", "build/debug/src/x.o")
        (.ok ()) (.ok ⟨"warning: unused variable", "", true⟩)
        (.ok ()) (.ok ())).2[1]? =
      some (CmdEvent.runProcessToCompletion DEFAULT_COMPILER
        (compile_args ["-Wall"] "src/x.cpp" "build/debug/src/x.o")) ∧
    (compile_object (DEFAULT_COMPILER, ["-Wall"], "src/x.cpp", "build/debug/src/x.o")
        (.ok ()) (.ok ⟨"warning: unused variable", "", true⟩)
        (.ok ()) (.ok ())).2[2]? =
      some (CmdEvent.writeAllStdout "warning: unused variable") ∧
    (1 : Nat) < 2 :=
  ⟨rfl, rfl,
    stream_forward_after_exit
      (DEFAULT_COMPILER, ["-Wall"], "src/x.cpp", "build/debug/src/x.o")
      (.ok ()) (.ok ⟨"warning: unused variable", "", true⟩) (.ok ()) (.ok ())
      1 2
      (CmdEvent.runProcessToCompletion DEFAULT_COMPILER
        (compile_args ["-Wall"] "src/x.cpp" "build/debug/src/x.o"))
      (CmdEvent.writeAllStdout "warning: unused variable") rfl rfl rfl rfl⟩

/-- Claim C8: if any directory entry encountered during recursive source
discovery is unreadable, the whole discovery returns an error — never a
partial list of files, no matter how many matching files precede the
unreadable entry. -/
theorem find_file_error_aborts (entries : List (Except String DirEntry))
    (exts : List String) (e : String) (h : Except.error e ∈ entries) :
    ∃ m, find_file entries exts = .error m := by
  induction entries with
  | nil => cases h
  | cons hd rest ih =>
    cases hd with
    | error e2 => exact ⟨"Error can't read entry : " ++ e2, rfl⟩
    | ok f =>
      have h1 : Except.error e ∈ rest := by
        rcases List.mem_cons.mp h with h2 | h2
        · cases h2
        · exact h2
      obtain ⟨m, hm⟩ := ih h1
      exact ⟨m, by simp [find_file, hm]⟩

/-- Witness for C8: two matching files precede an unreadable entry, yet the
walk of the source profile returns an error, not the partial list. -/
theorem find_file_error_aborts_witness :
    Except.error "permission denied" ∈
      ([Except.ok ⟨"a.cpp", "src/a.cpp", true⟩, Except.ok ⟨"b.c", "src/b.c", true⟩,
        Except.error "permission denied"] : List (Except String DirEntry)) ∧
    ∃ m, find_file
        [Except.ok ⟨"a.cpp", "src/a.cpp", true⟩, Except.ok ⟨"b.c", "src/b.c", true⟩,
          Except.error "permission denied"] src_extensions = .error m :=
  ⟨by simp, find_file_error_aborts
    [Except.ok ⟨"a.cpp", "src/a.cpp", true⟩, Except.ok ⟨"b.c", "src/b.c", true⟩,
      Except.error "permission denied"] src_extensions "permission denied" (by simp)⟩

/-- The walk of a source tree containing exactly `a.cpp`, `b.c`, `c.txt`
and `sub/d.hpp` under the `src` root, with the directory entries the
traversal also yields. -/
def exampleTree : List (Except String DirEntry) :=
  [Except.ok ⟨"src", "src", false⟩,
    Except.ok ⟨"a.cpp", "src/a.cpp", true⟩,
    Except.ok ⟨"b.c", "src/b.c", true⟩,
    Except.ok ⟨"c.txt", "src/c.txt", true⟩,
    Except.ok ⟨"sub", "src/sub", false⟩,
    Except.ok ⟨"d.hpp", "src/sub/d.hpp", true⟩]

/-- Claim C9: on a tree containing exactly `a.cpp`, `b.c`, `c.txt` and
`sub/d.hpp`, discovery with the sources profile (`find_srcs`, suffixes
`.cpp`/`.c`) returns exactly `{a.cpp, b.c}`, and discovery with the
all-code profile (`find_code`, additionally `.hpp`/`.h`) returns exactly
`{a.cpp, b.c, sub/d.hpp}`. -/
theorem discovery_profiles_example :
    find_srcs exampleTree = .ok ["src/a.cpp", "src/b.c"] ∧
    find_code exampleTree = .ok ["src/a.cpp", "src/b.c", "src/sub/d.hpp"] := by
  constructor
  · rfl
  · rfl

/-- Claim C10: the source-to-object derivation `object_path` (used by
`compile_all_objects` to build the compile jobs) replaces the source
extension with `.o` under the variant's build directory, and is not
injective: the distinct sources `src/x.c` and `src/x.cpp` receive the same
object output path. -/
theorem object_path_not_injective :
    object_path DEBUG_BUILD_SUBDIR "src/x.c" = "build/debug/src/x.o" ∧
    object_path DEBUG_BUILD_SUBDIR "src/x.cpp" = "build/debug/src/x.o" ∧
    ("src/x.c" : String) ≠ "src/x.cpp" ∧
    (compile_parameters DEFAULT_COMPILER DEFAULT_FLAGS DEBUG_BUILD_SUBDIR
        ["src/x.c", "src/x.cpp"]).map (fun job => job.2.2.2) =
      ["build/debug/src/x.o", "build/debug/src/x.o"] := by
  refine ⟨by decide, by decide, by decide, by decide⟩

/-! ## Lemmas about the configuration resolvers -/

theorem error_bind_ne_ok {ε α β : Type _} (e : ε) (f : α → Except ε β) (b : β) :
    Except.bind (Except.error e) f ≠ Except.ok b :=
  fun h => Except.noConfusion h

theorem ok_bind {ε α β : Type _} (a : α) (f : α → Except ε β) :
    Except.bind (Except.ok a : Except ε α) f = f a := rfl

theorem resolve_string_error (toml : Table) (k d : String)
    (h : wrong_string toml k = true) :
    resolve_string toml k d = .error (string_type_error k) := by
  unfold wrong_string at h
  unfold resolve_string read_string_key
  rcases hl : lookupKey toml k with _ | v
  · rw [hl] at h
    cases h
  · rw [hl] at h
    simp only [hl]
    rcases hs : as_str v with _ | s
    · simp only [hs]
    · simp [hs] at h

theorem resolve_string_ok (toml : Table) (k d : String)
    (h : wrong_string toml k = false) :
    ∃ s, resolve_string toml k d = .ok s := by
  unfold wrong_string at h
  unfold resolve_string read_string_key
  rcases hl : lookupKey toml k with _ | v
  · exact ⟨d, by simp [hl]⟩
  · rw [hl] at h
    rcases hs : as_str v with _ | s
    · simp [hs] at h
    · exact ⟨s, by simp [hl, hs]⟩

theorem resolve_string_list_error (toml : Table) (k : String) (d : List String)
    (h : wrong_list toml k = true) :
    resolve_string_list toml k d = .error (list_type_error k) := by
  unfold wrong_list at h
  unfold resolve_string_list read_string_list_key
  rcases hl : lookupKey toml k with _ | v
  · rw [hl] at h
    cases h
  · rw [hl] at h
    simp only [hl]
    rcases hs : as_str_list v with _ | s
    · simp only [hs]
    · simp [hs] at h

theorem resolve_string_list_ok (toml : Table) (k : String) (d : List String)
    (h : wrong_list toml k = false) :
    ∃ s, resolve_string_list toml k d = .ok s := by
  unfold wrong_list at h
  unfold resolve_string_list read_string_list_key
  rcases hl : lookupKey toml k with _ | v
  · exact ⟨d, by simp [hl]⟩
  · rw [hl] at h
    rcases hs : as_str_list v with _ | s
    · simp [hs] at h
    · exact ⟨s, by simp [hl, hs]⟩

/-- Claim C5: whenever some recognized key is present in the parsed
configuration with the wrong shape (a string key holding a non-string, or a
list key holding a non-array or an array with a non-string element),
resolution of the whole configuration fails with the type error naming one
such offending key — specifically the first one in resolution order — and
no configuration value is returned. -/
theorem wrong_shape_type_error (toml : Table)
    (h : ∃ k ∈ configKeys, wrongShaped toml k = true) :
    ∃ k ∈ configKeys, wrongShaped toml k = true ∧
      read_configuration toml = .error (type_error_message k) := by
  by_cases h1 : wrong_string toml COMPILER_KEY = true
  · refine ⟨.compiler, by simp [configKeys], h1, ?_⟩
    unfold read_configuration
    rw [resolve_string_error toml COMPILER_KEY DEFAULT_COMPILER h1]
    rfl
  obtain ⟨v1, e1⟩ := resolve_string_ok toml COMPILER_KEY DEFAULT_COMPILER
    (Bool.eq_false_iff.mpr h1)
  by_cases h2 : wrong_string toml DEBUGGER_KEY = true
  · refine ⟨.debugger, by simp [configKeys], h2, ?_⟩
    unfold read_configuration
    rw [e1, ok_bind, resolve_string_error toml DEBUGGER_KEY DEFAULT_DEBUGGER h2]
    rfl
  obtain ⟨v2, e2⟩ := resolve_string_ok toml DEBUGGER_KEY DEFAULT_DEBUGGER
    (Bool.eq_false_iff.mpr h2)
  by_cases h3 : wrong_string toml LINTER_KEY = true
  · refine ⟨.linter, by simp [configKeys], h3, ?_⟩
    unfold read_configuration
    rw [e1, ok_bind, e2, ok_bind,
      resolve_string_error toml LINTER_KEY DEFAULT_LINTER h3]
    rfl
  obtain ⟨v3, e3⟩ := resolve_string_ok toml LINTER_KEY DEFAULT_LINTER
    (Bool.eq_false_iff.mpr h3)
  by_cases h4 : wrong_list toml FLAGS_KEY = true
  · refine ⟨.flags, by simp [configKeys], h4, ?_⟩
    unfold read_configuration
    rw [e1, ok_bind, e2, ok_bind, e3, ok_bind,
      resolve_string_list_error toml FLAGS_KEY DEFAULT_FLAGS h4]
    rfl
  obtain ⟨v4, e4⟩ := resolve_string_list_ok toml FLAGS_KEY DEFAULT_FLAGS
    (Bool.eq_false_iff.mpr h4)
  by_cases h5 : wrong_list toml DEBUG_FLAGS_KEY = true
  · refine ⟨.debugFlags, by simp [configKeys], h5, ?_⟩
    unfold read_configuration
    rw [e1, ok_bind, e2, ok_bind, e3, ok_bind, e4, ok_bind,
      resolve_string_list_error toml DEBUG_FLAGS_KEY DEFAULT_DEBUG_FLAGS h5]
    rfl
  obtain ⟨v5, e5⟩ := resolve_string_list_ok toml DEBUG_FLAGS_KEY DEFAULT_DEBUG_FLAGS
    (Bool.eq_false_iff.mpr h5)
  by_cases h6 : wrong_list toml RELEASE_FLAGS_KEY = true
  · refine ⟨.releaseFlags, by simp [configKeys], h6, ?_⟩
    unfold read_configuration
    rw [e1, ok_bind, e2, ok_bind, e3, ok_bind, e4, ok_bind, e5, ok_bind,
      resolve_string_list_error toml RELEASE_FLAGS_KEY DEFAULT_RELEASE_FLAGS h6]
    rfl
  obtain ⟨v6, e6⟩ := resolve_string_list_ok toml RELEASE_FLAGS_KEY
    DEFAULT_RELEASE_FLAGS (Bool.eq_false_iff.mpr h6)
  by_cases h7 : wrong_list toml LINKER_FLAGS_KEY = true
  · refine ⟨.linkerFlags, by simp [configKeys], h7, ?_⟩
    unfold read_configuration
    rw [e1, ok_bind, e2, ok_bind, e3, ok_bind, e4, ok_bind, e5, ok_bind, e6,
      ok_bind,
      resolve_string_list_error toml LINKER_FLAGS_KEY DEFAULT_LINKER_FLAGS h7]
    rfl
  obtain ⟨v7, e7⟩ := resolve_string_list_ok toml LINKER_FLAGS_KEY
    DEFAULT_LINKER_FLAGS (Bool.eq_false_iff.mpr h7)
  by_cases h8 : wrong_string toml LINTER_CHECKS_KEY = true
  · refine ⟨.linterChecks, by simp [configKeys], h8, ?_⟩
    unfold read_configuration
    rw [e1, ok_bind, e2, ok_bind, e3, ok_bind, e4, ok_bind, e5, ok_bind, e6,
      ok_bind, e7, ok_bind,
      resolve_string_error toml LINTER_CHECKS_KEY DEFAULT_LINTER_CHECKS h8]
    rfl
  exfalso
  obtain ⟨k, hk, hw⟩ := h
  cases k with
  | compiler => exact h1 hw
  | debugger => exact h2 hw
  | linter => exact h3 hw
  | flags => exact h4 hw
  | debugFlags => exact h5 hw
  | releaseFlags => exact h6 hw
  | linkerFlags => exact h7 hw
  | linterChecks => exact h8 hw

/-- Witness for C5: a table giving the list key `flags` a bare string makes
the whole resolution fail with the error naming `flags`. -/
theorem wrong_shape_type_error_witness :
    ∃ k ∈ configKeys,
      wrongShaped [(FLAGS_KEY, TomlValue.str "-Wall")] k = true ∧
      read_configuration [(FLAGS_KEY, TomlValue.str "-Wall")] =
        .error (type_error_message k) :=
  wrong_shape_type_error [(FLAGS_KEY, TomlValue.str "-Wall")]
    ⟨.flags, by simp [configKeys], by decide⟩

/-! ## Erasing one key from a table -/

theorem lookupKey_eraseKey_self (toml : Table) (k : String) :
    lookupKey (eraseKey toml k) k = none := by
  induction toml with
  | nil => rfl
  | cons p rest ih =>
    by_cases hp : p.1 = k
    · simpa [eraseKey, hp] using ih
    · simp [eraseKey, hp, lookupKey, ih]

theorem lookupKey_eraseKey_ne (toml : Table) (k k2 : String) (h : k2 ≠ k) :
    lookupKey (eraseKey toml k) k2 = lookupKey toml k2 := by
  induction toml with
  | nil => rfl
  | cons p rest ih =>
    by_cases hp : p.1 = k
    · have hp2 : k ≠ k2 := fun he => h he.symm
      simp [eraseKey, hp, lookupKey, hp2, ih]
    · simp [eraseKey, hp, lookupKey, ih]

theorem resolve_string_absent (toml : Table) (k d : String)
    (h : lookupKey toml k = none) : resolve_string toml k d = .ok d := by
  unfold resolve_string read_string_key
  rw [h]
  rfl

theorem resolve_string_list_absent (toml : Table) (k : String) (d : List String)
    (h : lookupKey toml k = none) : resolve_string_list toml k d = .ok d := by
  unfold resolve_string_list read_string_list_key
  rw [h]
  rfl

theorem resolve_string_erase_self (toml : Table) (kn d : String) :
    resolve_string (eraseKey toml kn) kn d = .ok d :=
  resolve_string_absent _ _ _ (lookupKey_eraseKey_self toml kn)

theorem resolve_string_list_erase_self (toml : Table) (kn : String)
    (d : List String) :
    resolve_string_list (eraseKey toml kn) kn d = .ok d :=
  resolve_string_list_absent _ _ _ (lookupKey_eraseKey_self toml kn)

theorem resolve_string_erase_ne (toml : Table) (kn k d : String) (h : k ≠ kn) :
    resolve_string (eraseKey toml kn) k d = resolve_string toml k d := by
  unfold resolve_string read_string_key
  rw [lookupKey_eraseKey_ne toml kn k h]

theorem resolve_string_list_erase_ne (toml : Table) (kn k : String)
    (d : List String) (h : k ≠ kn) :
    resolve_string_list (eraseKey toml kn) k d = resolve_string_list toml k d := by
  unfold resolve_string_list read_string_list_key
  rw [lookupKey_eraseKey_ne toml kn k h]

theorem bind_ok_destruct {ε α β : Type _} (x : Except ε α) (f : α → Except ε β)
    (b : β) (h : x.bind f = .ok b) : ∃ a, x = .ok a ∧ f a = .ok b := by
  cases x with
  | error e => exact absurd h (error_bind_ne_ok _ _ _)
  | ok a => exact ⟨a, rfl, h⟩

/-- Claim C6: each recognized key resolves independently.  If a table
resolves to a configuration `c`, then the table with any one recognized key
omitted still resolves, the omitted key's field is exactly its documented
default (compiler `clang++`, debugger `lldb`, linter `clang-tidy`, common
flags `-Wall -Wextra -pedantic`, debug flags `-g`, release flags `-O2`,
linker flags empty, linter checks `clang-analyzer-*`), and every other
key's field is unchanged. -/
theorem omitted_key_default_independent (toml : Table) (k : ConfigKey)
    (c : Config) (hc : read_configuration toml = .ok c) :
    ∃ c2, read_configuration (eraseKey toml (key_name k)) = .ok c2 ∧
      field_of c2 k = key_default k ∧
      ∀ k2 : ConfigKey, k2 ≠ k → field_of c2 k2 = field_of c k2 := by
  unfold read_configuration at hc
  obtain ⟨v1, e1, hc⟩ := bind_ok_destruct _ _ _ hc
  obtain ⟨v2, e2, hc⟩ := bind_ok_destruct _ _ _ hc
  obtain ⟨v3, e3, hc⟩ := bind_ok_destruct _ _ _ hc
  obtain ⟨v4, e4, hc⟩ := bind_ok_destruct _ _ _ hc
  obtain ⟨v5, e5, hc⟩ := bind_ok_destruct _ _ _ hc
  obtain ⟨v6, e6, hc⟩ := bind_ok_destruct _ _ _ hc
  obtain ⟨v7, e7, hc⟩ := bind_ok_destruct _ _ _ hc
  obtain ⟨v8, e8, hc⟩ := bind_ok_destruct _ _ _ hc
  have hceq : c = ⟨v1, v2, v3, v4, v5, v6, v7, v8⟩ := by
    injection hc with h2
    exact h2.symm
  subst hceq
  cases k with
  | compiler =>
    refine ⟨⟨DEFAULT_COMPILER, v2, v3, v4, v5, v6, v7, v8⟩, ?_, rfl, ?_⟩
    · dsimp only [key_name]
      unfold read_configuration
      rw [resolve_string_erase_self toml COMPILER_KEY DEFAULT_COMPILER, ok_bind,
        resolve_string_erase_ne toml COMPILER_KEY DEBUGGER_KEY DEFAULT_DEBUGGER
          (by decide), e2, ok_bind,
        resolve_string_erase_ne toml COMPILER_KEY LINTER_KEY DEFAULT_LINTER
          (by decide), e3, ok_bind,
        resolve_string_list_erase_ne toml COMPILER_KEY FLAGS_KEY DEFAULT_FLAGS
          (by decide), e4, ok_bind,
        resolve_string_list_erase_ne toml COMPILER_KEY DEBUG_FLAGS_KEY
          DEFAULT_DEBUG_FLAGS (by decide), e5, ok_bind,
        resolve_string_list_erase_ne toml COMPILER_KEY RELEASE_FLAGS_KEY
          DEFAULT_RELEASE_FLAGS (by decide), e6, ok_bind,
        resolve_string_list_erase_ne toml COMPILER_KEY LINKER_FLAGS_KEY
          DEFAULT_LINKER_FLAGS (by decide), e7, ok_bind,
        resolve_string_erase_ne toml COMPILER_KEY LINTER_CHECKS_KEY
          DEFAULT_LINTER_CHECKS (by decide), e8, ok_bind]
    · intro k2 hne
      cases k2 <;> first | rfl | exact absurd rfl hne
  | debugger =>
    refine ⟨⟨v1, DEFAULT_DEBUGGER, v3, v4, v5, v6, v7, v8⟩, ?_, rfl, ?_⟩
    · dsimp only [key_name]
      unfold read_configuration
      rw [resolve_string_erase_ne toml DEBUGGER_KEY COMPILER_KEY DEFAULT_COMPILER
          (by decide), e1, ok_bind,
        resolve_string_erase_self toml DEBUGGER_KEY DEFAULT_DEBUGGER, ok_bind,
        resolve_string_erase_ne toml DEBUGGER_KEY LINTER_KEY DEFAULT_LINTER
          (by decide), e3, ok_bind,
        resolve_string_list_erase_ne toml DEBUGGER_KEY FLAGS_KEY DEFAULT_FLAGS
          (by decide), e4, ok_bind,
        resolve_string_list_erase_ne toml DEBUGGER_KEY DEBUG_FLAGS_KEY
          DEFAULT_DEBUG_FLAGS (by decide), e5, ok_bind,
        resolve_string_list_erase_ne toml DEBUGGER_KEY RELEASE_FLAGS_KEY
          DEFAULT_RELEASE_FLAGS (by decide), e6, ok_bind,
        resolve_string_list_erase_ne toml DEBUGGER_KEY LINKER_FLAGS_KEY
          DEFAULT_LINKER_FLAGS (by decide), e7, ok_bind,
        resolve_string_erase_ne toml DEBUGGER_KEY LINTER_CHECKS_KEY
          DEFAULT_LINTER_CHECKS (by decide), e8, ok_bind]
    · intro k2 hne
      cases k2 <;> first | rfl | exact absurd rfl hne
  | linter =>
    refine ⟨⟨v1, v2, DEFAULT_LINTER, v4, v5, v6, v7, v8⟩, ?_, rfl, ?_⟩
    · dsimp only [key_name]
      unfold read_configuration
      rw [resolve_string_erase_ne toml LINTER_KEY COMPILER_KEY DEFAULT_COMPILER
          (by decide), e1, ok_bind,
        resolve_string_erase_ne toml LINTER_KEY DEBUGGER_KEY DEFAULT_DEBUGGER
          (by decide), e2, ok_bind,
        resolve_string_erase_self toml LINTER_KEY DEFAULT_LINTER, ok_bind,
        resolve_string_list_erase_ne toml LINTER_KEY FLAGS_KEY DEFAULT_FLAGS
          (by decide), e4, ok_bind,
        resolve_string_list_erase_ne toml LINTER_KEY DEBUG_FLAGS_KEY
          DEFAULT_DEBUG_FLAGS (by decide), e5, ok_bind,
        resolve_string_list_erase_ne toml LINTER_KEY RELEASE_FLAGS_KEY
          DEFAULT_RELEASE_FLAGS (by decide), e6, ok_bind,
        resolve_string_list_erase_ne toml LINTER_KEY LINKER_FLAGS_KEY
          DEFAULT_LINKER_FLAGS (by decide), e7, ok_bind,
        resolve_string_erase_ne toml LINTER_KEY LINTER_CHECKS_KEY
          DEFAULT_LINTER_CHECKS (by decide), e8, ok_bind]
    · intro k2 hne
      cases k2 <;> first | rfl | exact absurd rfl hne
  | flags =>
    refine ⟨⟨v1, v2, v3, DEFAULT_FLAGS, v5, v6, v7, v8⟩, ?_, rfl, ?_⟩
    · dsimp only [key_name]
      unfold read_configuration
      rw [resolve_string_erase_ne toml FLAGS_KEY COMPILER_KEY DEFAULT_COMPILER
          (by decide), e1, ok_bind,
        resolve_string_erase_ne toml FLAGS_KEY DEBUGGER_KEY DEFAULT_DEBUGGER
          (by decide), e2, ok_bind,
        resolve_string_erase_ne toml FLAGS_KEY LINTER_KEY DEFAULT_LINTER
          (by decide), e3, ok_bind,
        resolve_string_list_erase_self toml FLAGS_KEY DEFAULT_FLAGS, ok_bind,
        resolve_string_list_erase_ne toml FLAGS_KEY DEBUG_FLAGS_KEY
          DEFAULT_DEBUG_FLAGS (by decide), e5, ok_bind,
        resolve_string_list_erase_ne toml FLAGS_KEY RELEASE_FLAGS_KEY
          DEFAULT_RELEASE_FLAGS (by decide), e6, ok_bind,
        resolve_string_list_erase_ne toml FLAGS_KEY LINKER_FLAGS_KEY
          DEFAULT_LINKER_FLAGS (by decide), e7, ok_bind,
        resolve_string_erase_ne toml FLAGS_KEY LINTER_CHECKS_KEY
          DEFAULT_LINTER_CHECKS (by decide), e8, ok_bind]
    · intro k2 hne
      cases k2 <;> first | rfl | exact absurd rfl hne
  | debugFlags =>
    refine ⟨⟨v1, v2, v3, v4, DEFAULT_DEBUG_FLAGS, v6, v7, v8⟩, ?_, rfl, ?_⟩
    · dsimp only [key_name]
      unfold read_configuration
      rw [resolve_string_erase_ne toml DEBUG_FLAGS_KEY COMPILER_KEY
          DEFAULT_COMPILER (by decide), e1, ok_bind,
        resolve_string_erase_ne toml DEBUG_FLAGS_KEY DEBUGGER_KEY
          DEFAULT_DEBUGGER (by decide), e2, ok_bind,
        resolve_string_erase_ne toml DEBUG_FLAGS_KEY LINTER_KEY DEFAULT_LINTER
          (by decide), e3, ok_bind,
        resolve_string_list_erase_ne toml DEBUG_FLAGS_KEY FLAGS_KEY
          DEFAULT_FLAGS (by decide), e4, ok_bind,
        resolve_string_list_erase_self toml DEBUG_FLAGS_KEY DEFAULT_DEBUG_FLAGS,
        ok_bind,
        resolve_string_list_erase_ne toml DEBUG_FLAGS_KEY RELEASE_FLAGS_KEY
          DEFAULT_RELEASE_FLAGS (by decide), e6, ok_bind,
        resolve_string_list_erase_ne toml DEBUG_FLAGS_KEY LINKER_FLAGS_KEY
          DEFAULT_LINKER_FLAGS (by decide), e7, ok_bind,
        resolve_string_erase_ne toml DEBUG_FLAGS_KEY LINTER_CHECKS_KEY
          DEFAULT_LINTER_CHECKS (by decide), e8, ok_bind]
    · intro k2 hne
      cases k2 <;> first | rfl | exact absurd rfl hne
  | releaseFlags =>
    refine ⟨⟨v1, v2, v3, v4, v5, DEFAULT_RELEASE_FLAGS, v7, v8⟩, ?_, rfl, ?_⟩
    · dsimp only [key_name]
      unfold read_configuration
      rw [resolve_string_erase_ne toml RELEASE_FLAGS_KEY COMPILER_KEY
          DEFAULT_COMPILER (by decide), e1, ok_bind,
        resolve_string_erase_ne toml RELEASE_FLAGS_KEY DEBUGGER_KEY
          DEFAULT_DEBUGGER (by decide), e2, ok_bind,
        resolve_string_erase_ne toml RELEASE_FLAGS_KEY LINTER_KEY DEFAULT_LINTER
          (by decide), e3, ok_bind,
        resolve_string_list_erase_ne toml RELEASE_FLAGS_KEY FLAGS_KEY
          DEFAULT_FLAGS (by decide), e4, ok_bind,
        resolve_string_list_erase_ne toml RELEASE_FLAGS_KEY DEBUG_FLAGS_KEY
          DEFAULT_DEBUG_FLAGS (by decide), e5, ok_bind,
        resolve_string_list_erase_self toml RELEASE_FLAGS_KEY
          DEFAULT_RELEASE_FLAGS, ok_bind,
        resolve_string_list_erase_ne toml RELEASE_FLAGS_KEY LINKER_FLAGS_KEY
          DEFAULT_LINKER_FLAGS (by decide), e7, ok_bind,
        resolve_string_erase_ne toml RELEASE_FLAGS_KEY LINTER_CHECKS_KEY
          DEFAULT_LINTER_CHECKS (by decide), e8, ok_bind]
    · intro k2 hne
      cases k2 <;> first | rfl | exact absurd rfl hne
  | linkerFlags =>
    refine ⟨⟨v1, v2, v3, v4, v5, v6, DEFAULT_LINKER_FLAGS, v8⟩, ?_, rfl, ?_⟩
    · dsimp only [key_name]
      unfold read_configuration
      rw [resolve_string_erase_ne toml LINKER_FLAGS_KEY COMPILER_KEY
          DEFAULT_COMPILER (by decide), e1, ok_bind,
        resolve_string_erase_ne toml LINKER_FLAGS_KEY DEBUGGER_KEY
          DEFAULT_DEBUGGER (by decide), e2, ok_bind,
        resolve_string_erase_ne toml LINKER_FLAGS_KEY LINTER_KEY DEFAULT_LINTER
          (by decide), e3, ok_bind,
        resolve_string_list_erase_ne toml LINKER_FLAGS_KEY FLAGS_KEY
          DEFAULT_FLAGS (by decide), e4, ok_bind,
        resolve_string_list_erase_ne toml LINKER_FLAGS_KEY DEBUG_FLAGS_KEY
          DEFAULT_DEBUG_FLAGS (by decide), e5, ok_bind,
        resolve_string_list_erase_ne toml LINKER_FLAGS_KEY RELEASE_FLAGS_KEY
          DEFAULT_RELEASE_FLAGS (by decide), e6, ok_bind,
        resolve_string_list_erase_self toml LINKER_FLAGS_KEY
          DEFAULT_LINKER_FLAGS, ok_bind,
        resolve_string_erase_ne toml LINKER_FLAGS_KEY LINTER_CHECKS_KEY
          DEFAULT_LINTER_CHECKS (by decide), e8, ok_bind]
    · intro k2 hne
      cases k2 <;> first | rfl | exact absurd rfl hne
  | linterChecks =>
    refine ⟨⟨v1, v2, v3, v4, v5, v6, v7, DEFAULT_LINTER_CHECKS⟩, ?_, rfl, ?_⟩
    · dsimp only [key_name]
      unfold read_configuration
      rw [resolve_string_erase_ne toml LINTER_CHECKS_KEY COMPILER_KEY
          DEFAULT_COMPILER (by decide), e1, ok_bind,
        resolve_string_erase_ne toml LINTER_CHECKS_KEY DEBUGGER_KEY
          DEFAULT_DEBUGGER (by decide), e2, ok_bind,
        resolve_string_erase_ne toml LINTER_CHECKS_KEY LINTER_KEY DEFAULT_LINTER
          (by decide), e3, ok_bind,
        resolve_string_list_erase_ne toml LINTER_CHECKS_KEY FLAGS_KEY
          DEFAULT_FLAGS (by decide), e4, ok_bind,
        resolve_string_list_erase_ne toml LINTER_CHECKS_KEY DEBUG_FLAGS_KEY
          DEFAULT_DEBUG_FLAGS (by decide), e5, ok_bind,
        resolve_string_list_erase_ne toml LINTER_CHECKS_KEY RELEASE_FLAGS_KEY
          DEFAULT_RELEASE_FLAGS (by decide), e6, ok_bind,
        resolve_string_list_erase_ne toml LINTER_CHECKS_KEY LINKER_FLAGS_KEY
          DEFAULT_LINKER_FLAGS (by decide), e7, ok_bind,
        resolve_string_erase_self toml LINTER_CHECKS_KEY DEFAULT_LINTER_CHECKS,
        ok_bind]
    · intro k2 hne
      cases k2 <;> first | rfl | exact absurd rfl hne

/-- Witness for C6: a table that only sets the compiler resolves, and
erasing the compiler key restores its default while leaving every other
field untouched. -/
theorem omitted_key_default_independent_witness :
    read_configuration [(COMPILER_KEY, TomlValue.str "g++")] =
      .ok ⟨"g++", DEFAULT_DEBUGGER, DEFAULT_LINTER, DEFAULT_FLAGS,
        DEFAULT_DEBUG_FLAGS, DEFAULT_RELEASE_FLAGS, DEFAULT_LINKER_FLAGS,
        DEFAULT_LINTER_CHECKS⟩ ∧
    ∃ c2, read_configuration
        (eraseKey [(COMPILER_KEY, TomlValue.str "g++")] (key_name .compiler)) =
          .ok c2 ∧
      field_of c2 .compiler = key_default .compiler ∧
      ∀ k2 : ConfigKey, k2 ≠ .compiler →
        field_of c2 k2 =
          field_of ⟨"g++", DEFAULT_DEBUGGER, DEFAULT_LINTER, DEFAULT_FLAGS,
            DEFAULT_DEBUG_FLAGS, DEFAULT_RELEASE_FLAGS, DEFAULT_LINKER_FLAGS,
            DEFAULT_LINTER_CHECKS⟩ k2 :=
  ⟨by decide, omitted_key_default_independent
    [(COMPILER_KEY, TomlValue.str "g++")] .compiler
    ⟨"g++", DEFAULT_DEBUGGER, DEFAULT_LINTER, DEFAULT_FLAGS,
      DEFAULT_DEBUG_FLAGS, DEFAULT_RELEASE_FLAGS, DEFAULT_LINKER_FLAGS,
      DEFAULT_LINTER_CHECKS⟩ (by decide)⟩

end Embargo
